import Mathlib

/-
Verification development for the weather-weaver request-driven ingestion
pipeline.

The definitions below are a shallow embedding of the Python sources:
  * src/weather_weaver/outputs/localfs/client.py   (LocalClient)
  * src/weather_weaver/services/service.py         (WeatherConsumerService)
  * src/weather_weaver/models/geo.py               (GeoFilterModel, BoundingBox)
  * src/weather_weaver/inputs/ecmwf/open_data/request.py (ECMWFOpenDataRequest)
  * src/weather_weaver/inputs/ecmwf/open_data/fetcher.py and
    src/weather_weaver/inputs/ecmwf/cds/fetcher.py (download_raw_file)

Filesystem state is modelled as a lookup function from path strings to
filesystem entries; paths are plain strings joined with "/". Machine floats
appear in the source only as the constant 1e6 (an exact integer) and as
geometry coordinates, which we model with rationals; no rounding behaviour
is relied on anywhere. The dask bag pipeline is modelled with its
sequential (synchronous-scheduler) semantics, the scheduler the
repository's own test-suite uses: partitions are evaluated in order and
the first raised exception aborts the computation, which we render with
Except. Collaborator invocations are counted explicitly in a trace so that
"no fetch/transform/store call happens" is a provable statement.
-/

/-! # Filesystem model and LocalClient (outputs/localfs/client.py) -/

/-- A filesystem entry: either a regular file with a byte size, or a
directory with a list of child entries. -/
inductive FSEntry : Type where
  | file : Nat → FSEntry
  | dir : List FSEntry → FSEntry
deriving Repr

mutual

/-- Total byte size of the regular files reachable from an entry: a file
contributes its own size, a directory the sum over its children. For a
directory this is exactly what LocalClient.is_valid computes with
sum(f.stat().st_size for f in path.glob("**/*") if f.is_file()). -/
def FSEntry.total_size : FSEntry → Nat
  | .file s => s
  | .dir cs => FSEntry.total_size_list cs

/-- Sum of FSEntry.total_size over a list of entries. -/
def FSEntry.total_size_list : List FSEntry → Nat
  | [] => 0
  | c :: cs => FSEntry.total_size c + FSEntry.total_size_list cs

end

/-- A filesystem state: maps an absolute path string to the entry stored
there, none when the path does not exist. -/
def FileSystem : Type := String → Option FSEntry

/-- Embeds MIN_VALID_SIZE_BYTES = 1e6 from src/weather_weaver/constants.py
(the float 1e6 is the exact integer 10^6; all sizes compared against it are
integers, so Nat comparison is faithful). -/
def MIN_VALID_SIZE_BYTES : Nat := 1000000

/-- Embeds LocalClient.is_valid: returns false when the path does not
exist; for an existing regular file compares the file size against
min_size_bytes; for an existing directory compares the summed size of all
nested regular files. The comparison is strict (total_size > min_size_bytes). -/
def local_is_valid (fs : FileSystem) (path : String) (min_size_bytes : Nat) : Bool :=
  match fs path with
  | none => false
  | some (.file s) => s > min_size_bytes
  | some (.dir cs) => FSEntry.total_size_list cs > min_size_bytes

/-- Total byte size found at a path (0 when the path does not exist);
convenience reading of the size LocalClient.is_valid compares. -/
def path_total_size (fs : FileSystem) (path : String) : Nat :=
  match fs path with
  | none => 0
  | some e => FSEntry.total_size e

/-! # WeatherConsumerService (services/service.py) -/

/-- Embeds MAX_THREADS = 4 from services/service.py line 20. -/
def MAX_THREADS : Nat := 4

/-- Embeds the artifact path self.processed_dir / f"{t.file_name}.parquet"
built by WeatherConsumerService for a request's processed output. -/
def artifact_path (processed_dir : String) (file_name : String) : String :=
  processed_dir ++ "/" ++ file_name ++ ".parquet"

/-- Embeds WeatherConsumerService._filter_new_requests: keeps exactly the
requests t for which storer.is_valid(processed_dir / f"{t.file_name}.parquet")
is not true. The validity check is passed in as a boolean predicate on
paths, matching the StorageInterface contract. -/
def filter_new_requests (is_valid_check : String → Bool) (processed_dir : String)
    (file_name : α → String) (all_requests : List α) : List α :=
  all_requests.filter fun t => ! is_valid_check (artifact_path processed_dir (file_name t))

/-- Embeds npartitions = len(all_new_requests) from
WeatherConsumerService._process_requests (service.py line 143): the dask
bag is created with one partition per new request. -/
def npartitions (all_new_requests : List α) : Nat :=
  all_new_requests.length

/-- Trace of one pipeline run: how many times each collaborator was
invoked, and the outcome — Except.ok with the list of produced artifact
paths when compute returns, Except.error when a task exception propagates
out of compute. -/
structure PipelineTrace (ε : Type) where
  fetch_calls : Nat
  transform_calls : Nat
  store_calls : Nat
  result : Except ε (List String)
deriving Repr

/-- Embeds the dask bag built by WeatherConsumerService._build_dask_pipeline,
evaluated with the synchronous scheduler (the one the repository's test-suite
passes to download_datasets): partitions (one request each, see npartitions)
are evaluated in order; per request the chain is _download, the
raw-path-is-not-None filter, _process, _store; the first exception raised by
_process (processor.transform) or _store (storer.store) propagates out of
compute and later partitions are not evaluated. fetch never raises: the
fetchers catch exceptions and return None, rendered as Option. -/
def run_bag_sync (fetch : α → Option String) (transform : String → Except ε δ)
    (store : δ → String → Except ε String) (processed_dir : String)
    (file_name : α → String) : List α → PipelineTrace ε
  | [] => ⟨0, 0, 0, Except.ok []⟩
  | r :: rest =>
    match fetch r with
    | none =>
      -- failed download: filtered out, processing continues with the rest
      let t := run_bag_sync fetch transform store processed_dir file_name rest
      ⟨t.fetch_calls + 1, t.transform_calls, t.store_calls, t.result⟩
    | some raw_path =>
      match transform raw_path with
      | Except.error e => ⟨1, 1, 0, Except.error e⟩
      | Except.ok processed =>
        match store processed (artifact_path processed_dir (file_name r)) with
        | Except.error e => ⟨1, 1, 1, Except.error e⟩
        | Except.ok stored_path =>
          let t := run_bag_sync fetch transform store processed_dir file_name rest
          ⟨t.fetch_calls + 1, t.transform_calls + 1, t.store_calls + 1,
            match t.result with
            | Except.ok paths => Except.ok (stored_path :: paths)
            | Except.error e => Except.error e⟩

/-- Embeds WeatherConsumerService._process_requests: when the new-request
list is non-empty, build the dask pipeline with npartitions =
len(all_new_requests) and compute it; otherwise the pipeline is None and
the result is the empty list with no collaborator call at all. -/
def process_requests (fetch : α → Option String) (transform : String → Except ε δ)
    (store : δ → String → Except ε String) (processed_dir : String)
    (file_name : α → String) (all_new_requests : List α) : PipelineTrace ε :=
  if all_new_requests.length > 0 then
    run_bag_sync fetch transform store processed_dir file_name all_new_requests
  else
    ⟨0, 0, 0, Except.ok []⟩

/-- One request's pipeline chain succeeds: either its fetch returns None
(it is filtered out), or its raw file transforms and stores without an
exception. -/
def chain_ok (fetch : α → Option String) (transform : String → Except ε δ)
    (store : δ → String → Except ε String) (processed_dir : String)
    (file_name : α → String) (r : α) : Prop :=
  match fetch r with
  | none => True
  | some raw_path =>
    ∃ d, transform raw_path = Except.ok d ∧
      ∃ p, store d (artifact_path processed_dir (file_name r)) = Except.ok p

/-! # Request building (services/service.py: _date_offset, _build_default_requests) -/

/-- Offset-frequency unit for date expansion, as matched by
WeatherConsumerService._date_offset; DAILY maps to DateOffset(days=offset)
and YEARLY to DateOffset(years=offset). (The enum itself lives in
weather_weaver.utils; its two members are pinned by the match in
service.py lines 48-54.) -/
inductive OffsetFrequency : Type where
  | DAILY : OffsetFrequency
  | YEARLY : OffsetFrequency
deriving DecidableEq, Repr

/-- Embeds the run-date list of WeatherConsumerService._build_default_requests
specialized to OffsetFrequency.DAILY: dates are modelled as epoch-day
numbers, and start + DateOffset(days=i) is start + i; the list is
[(start + self._date_offset(offset=i, DAILY)) for i in range(date_offset)]. -/
def all_run_dates_daily (start : Nat) (date_offset : Nat) : List Nat :=
  (List.range date_offset).map fun i => start + i

/-- Embeds WeatherConsumerService._build_default_requests specialized to
OffsetFrequency.DAILY: build the run-date list, ask the request builder
policy for the default requests of each run-date, and flatten the results
in date-major order ([u for v in all_requests for u in v]). -/
def build_default_requests_daily (build_policy : Nat → List α) (start : Nat)
    (date_offset : Nat) : List α :=
  let all_requests := (all_run_dates_daily start date_offset).map build_policy
  all_requests.flatten

/-! # GeoFilterModel (models/geo.py)

A shapely geometry enters the orchestration layer only through its bounds
(minx, miny, maxx, maxy): GeoFilterModel.bounds takes
shapely.unary_union(filter_df.geometry).bounds, and the bounds of a union
of non-empty geometries are the componentwise min/max of the members'
bounds. We therefore model each region geometry by its bounds rectangle,
with rational coordinates standing for the source's floats (only min/max
and comparisons are used, so this is exact). -/

/-- Bounds of a geometry: (min_lon, min_lat, max_lon, max_lat), the tuple
shapely's .bounds returns. -/
structure GeoBounds where
  min_lon : ℚ
  min_lat : ℚ
  max_lon : ℚ
  max_lat : ℚ
deriving DecidableEq, Repr

/-- Bounds of the union of two geometries: componentwise min/max. -/
def GeoBounds.union2 (a b : GeoBounds) : GeoBounds :=
  ⟨min a.min_lon b.min_lon, min a.min_lat b.min_lat,
   max a.max_lon b.max_lon, max a.max_lat b.max_lat⟩

/-- Bounds b contain bounds g: every point inside g is inside b. -/
def GeoBounds.contains (b g : GeoBounds) : Prop :=
  b.min_lon ≤ g.min_lon ∧ b.min_lat ≤ g.min_lat ∧
  g.max_lon ≤ b.max_lon ∧ g.max_lat ≤ b.max_lat

instance (b g : GeoBounds) : Decidable (GeoBounds.contains b g) := by
  unfold GeoBounds.contains; infer_instance

/-- Bounds of shapely.unary_union over a list of geometries (each given by
its bounds): none for the empty list (the empty union has no bounds — the
source unpacks the 4-tuple and would fail there), otherwise the
componentwise min/max fold. -/
def union_bounds : List GeoBounds → Option GeoBounds
  | [] => none
  | g :: gs => some (gs.foldl GeoBounds.union2 g)

/-- One row of the world-countries filter_df: the country ISO3 code and
the row's geometry, modelled by its bounds. -/
structure GeoRegion where
  country_iso3 : String
  geometry : GeoBounds
deriving DecidableEq, Repr

/-- Embeds models/geo.py GeoFilterModel: a geodataframe of region rows and
a spatial predicate method. -/
structure GeoFilterModel where
  filter_df : List GeoRegion
  method : String
deriving DecidableEq, Repr

/-- Embeds the GeoFilterModel.bounds property: the bounds of
shapely.unary_union(self.filter_df.geometry), recomputed from filter_df on
every access (the source is a @property with no cache). -/
def GeoFilterModel.bounds (f : GeoFilterModel) : Option GeoBounds :=
  union_bounds (f.filter_df.map GeoRegion.geometry)

/-- Embeds GeoFilterModel.filter_iso3s: a new GeoFilterModel whose
filter_df keeps the rows whose country_iso3 is in list_iso3s, with method
"within". -/
def GeoFilterModel.filter_iso3s (f : GeoFilterModel) (list_iso3s : List String) :
    GeoFilterModel :=
  { filter_df := f.filter_df.filter fun r => list_iso3s.contains r.country_iso3
    method := "within" }

/-! # ECMWFOpenDataRequest (inputs/ecmwf/open_data/request.py) -/

/-- Stream type enum from open_data/request.py. -/
inductive StreamType : Type where
  | ENFO : StreamType
  | OPER : StreamType
deriving DecidableEq, Repr

/-- String value of a StreamType member. -/
def StreamType.value : StreamType → String
  | .ENFO => "enfo"
  | .OPER => "oper"

/-- Run-time enum from open_data/request.py. -/
inductive RunTime : Type where
  | H00 : RunTime
  | H06 : RunTime
  | H12 : RunTime
  | H18 : RunTime
deriving DecidableEq, Repr

/-- Integer value of a RunTime member. -/
def RunTime.value : RunTime → Nat
  | .H00 => 0
  | .H06 => 6
  | .H12 => 12
  | .H18 => 18

/-- Request type enum from open_data/request.py. -/
inductive RequestType : Type where
  | PERTUBED_FORECAST : RequestType
  | FORECAST : RequestType
deriving DecidableEq, Repr

/-- String value of a RequestType member. -/
def RequestType.value : RequestType → String
  | .PERTUBED_FORECAST => "pf"
  | .FORECAST => "fc"

/-- A calendar date (year, month, day); only strftime("%Y%m%d") formatting
is needed by the embedded code. -/
structure RequestDate where
  year : Nat
  month : Nat
  day : Nat
deriving DecidableEq, Repr

/-- Left-pad a decimal string with zeros to the given width, as Python's
str.zfill does for the non-negative numbers appearing here. -/
def zfill (width : Nat) (s : String) : String :=
  String.mk (List.replicate (width - s.length) '0') ++ s

/-- Python's run_date.strftime("%Y%m%d"): zero-padded year (4), month (2)
and day (2) concatenated. -/
def RequestDate.strftimeYYYYMMDD (d : RequestDate) : String :=
  zfill 4 (toString d.year) ++ zfill 2 (toString d.month) ++ zfill 2 (toString d.day)

/-- Embeds ECMWFOpenDataRequest: the parameter fields of one open-data
request (the pydantic model of open_data/request.py; the geo_filter field
is the optional GeoFilterModel modelled above). -/
structure ECMWFOpenDataRequest where
  run_date : RequestDate
  run_time : RunTime
  stream : StreamType
  request_type : RequestType
  nwp_parameters : List String
  forecast_steps : List Int
  update_raw : Bool := false
  geo_filter : Option GeoFilterModel := none
  normalise_data : Bool := false
deriving DecidableEq, Repr

/-- Embeds the ECMWFOpenDataRequest.file_name property:
"_".join([run_date.strftime("%Y%m%d"), str(run_time.value).zfill(2) + "z",
f"{forecast_steps[0]}-{forecast_steps[-1]}", request_type.value]) prefixed
with stream.value and "/". Python's forecast_steps[0] and
forecast_steps[-1] presuppose a non-empty list; headD/getLastD render them
totally and agree with the source on every non-empty list. -/
def ECMWFOpenDataRequest.file_name (r : ECMWFOpenDataRequest) : String :=
  let _name := String.intercalate "_"
    [ r.run_date.strftimeYYYYMMDD,
      zfill 2 (toString r.run_time.value) ++ "z",
      toString (r.forecast_steps.headD 0) ++ "-" ++ toString (r.forecast_steps.getLastD 0),
      r.request_type.value ]
  r.stream.value ++ "/" ++ _name

/-! # Fetchers (inputs/ecmwf/open_data/fetcher.py and inputs/ecmwf/cds/fetcher.py) -/

/-- Outcome of one download_raw_file call: the returned path (none when
the download failed and the method returns None) and how many network
retrievals (client.retrieve calls) were performed. -/
structure FetchOutcome where
  returned : Option String
  network_calls : Nat
deriving DecidableEq, Repr

/-- Common body of ECMWFOpenDataFetcher.download_raw_file and
ECMWFCDSFetcher.download_raw_file, which differ only in the wire-format
extension. destination_path is raw_dir / f"{request.file_name}{ext}". When
the destination exists with stat().st_size > min_size_bytes and update is
false, the existing path is returned with no retrieval. Otherwise
client.retrieve runs (one network call); on success the destination path
is returned, on an exception the partial file is deleted and None is
returned. The raw filesystem is modelled as path-to-size (raw artifacts
are single files), and the network by the size the retrieval would
produce, none standing for a raised exception. -/
def download_raw_file_generic (fs : String → Option Nat) (retrieve : Option Nat)
    (raw_dir : String) (request_file_name : String) (ext : String)
    (update : Bool) (min_size_bytes : Nat) : FetchOutcome :=
  let destination_path := raw_dir ++ "/" ++ request_file_name ++ ext
  let attempt : FetchOutcome :=
    match retrieve with
    | some _ => ⟨some destination_path, 1⟩
    | none => ⟨none, 1⟩
  match fs destination_path with
  | some size =>
    if size > min_size_bytes ∧ update = false then ⟨some destination_path, 0⟩
    else attempt
  | none => attempt

/-- Embeds ECMWFOpenDataFetcher.download_raw_file: destination
raw_dir / f"{request.file_name}.grib2". -/
def ecmwf_open_data_download_raw_file (fs : String → Option Nat) (retrieve : Option Nat)
    (raw_dir : String) (request : ECMWFOpenDataRequest)
    (update : Bool) (min_size_bytes : Nat) : FetchOutcome :=
  download_raw_file_generic fs retrieve raw_dir request.file_name ".grib2" update min_size_bytes

/-- Embeds ECMWFCDSFetcher.download_raw_file: destination
raw_dir / f"{request.file_name}.grib"; the CDS request's file_name is a
dataset-prefixed hex digest, passed in here as an opaque string. -/
def ecmwf_cds_download_raw_file (fs : String → Option Nat) (retrieve : Option Nat)
    (raw_dir : String) (request_file_name : String)
    (update : Bool) (min_size_bytes : Nat) : FetchOutcome :=
  download_raw_file_generic fs retrieve raw_dir request_file_name ".grib" update min_size_bytes

/-! # Helper lemmas -/

/-- Splitting a list by whether an Option-valued function succeeds on its
elements: the two filtered sublists together account for every element. -/
theorem length_filter_some_add_none (f : α → Option β) (l : List α) :
    (l.filter fun a => (f a).isSome).length + (l.filter fun a => (f a).isNone).length
      = l.length := by
  induction l with
  | nil => rfl
  | cons a l ih => cases hfa : f a <;> simp [List.filter_cons, hfa] <;> omega

/-- Containment of bounds is transitive. -/
theorem GeoBounds.contains_trans {x y z : GeoBounds}
    (h1 : x.contains y) (h2 : y.contains z) : x.contains z :=
  ⟨le_trans h1.1 h2.1, le_trans h1.2.1 h2.2.1,
   le_trans h2.2.2.1 h1.2.2.1, le_trans h2.2.2.2 h1.2.2.2⟩

/-- The union of two bounds contains the left operand. -/
theorem GeoBounds.contains_union2_left (a b : GeoBounds) : (a.union2 b).contains a :=
  ⟨min_le_left _ _, min_le_left _ _, le_max_left _ _, le_max_left _ _⟩

/-- The union of two bounds contains the right operand. -/
theorem GeoBounds.contains_union2_right (a b : GeoBounds) : (a.union2 b).contains b :=
  ⟨min_le_right _ _, min_le_right _ _, le_max_right _ _, le_max_right _ _⟩

/-- A componentwise min/max fold over a list of bounds contains the seed
and every member of the list. -/
theorem contains_foldl_union2 : ∀ (gs : List GeoBounds) (a : GeoBounds),
    (gs.foldl GeoBounds.union2 a).contains a ∧
      ∀ g ∈ gs, (gs.foldl GeoBounds.union2 a).contains g := by
  intro gs
  induction gs with
  | nil => exact fun a => ⟨⟨le_refl _, le_refl _, le_refl _, le_refl _⟩, by simp⟩
  | cons g gs ih =>
    intro a
    have h := ih (a.union2 g)
    refine ⟨GeoBounds.contains_trans h.1 (GeoBounds.contains_union2_left a g), ?_⟩
    intro g2 hg2
    rcases List.mem_cons.mp hg2 with rfl | hmem
    · exact GeoBounds.contains_trans h.1 (GeoBounds.contains_union2_right a g2)
    · exact h.2 g2 hmem

/-- When every fetched raw file transforms and stores without an
exception, the synchronous bag run returns ok with one artifact path per
fetch-successful request, in request order; fetch-failed requests are
filtered out. -/
theorem run_bag_sync_result_all_ok {α δ ε : Type} (fetch : α → Option String)
    (transform : String → Except ε δ) (store : δ → String → Except ε String)
    (processed_dir : String) (file_name : α → String) (d : String → δ)
    (htr : ∀ raw, transform raw = Except.ok (d raw))
    (hst : ∀ x p, store x p = Except.ok p) (reqs : List α) :
    (run_bag_sync fetch transform store processed_dir file_name reqs).result
      = Except.ok ((reqs.filter fun r => (fetch r).isSome).map
          fun r => artifact_path processed_dir (file_name r)) := by
  induction reqs with
  | nil => rfl
  | cons r rest ih =>
    cases hfr : fetch r with
    | none => simp [run_bag_sync, hfr, ih, List.filter_cons]
    | some raw_path =>
      simp [run_bag_sync, hfr, htr raw_path,
        hst (d raw_path) (artifact_path processed_dir (file_name r)), ih, List.filter_cons]

/-! # Claim theorems -/

/-- C1: a Request is scheduled for processing iff the LocalClient validity
check on its artifact path (processed_dir / file_name.parquet) is false;
equivalently it is skipped iff that path exists and its total byte size
strictly exceeds the minimum size threshold. -/
theorem ww_filter_new_requests_skips_iff_valid {α : Type} (fs : FileSystem)
    (processed_dir : String) (file_name : α → String) (all_requests : List α) (r : α) :
    (r ∈ filter_new_requests (fun p => local_is_valid fs p MIN_VALID_SIZE_BYTES)
        processed_dir file_name all_requests
      ↔ r ∈ all_requests
        ∧ local_is_valid fs (artifact_path processed_dir (file_name r))
            MIN_VALID_SIZE_BYTES = false)
    ∧ (local_is_valid fs (artifact_path processed_dir (file_name r))
          MIN_VALID_SIZE_BYTES = true
      ↔ (fs (artifact_path processed_dir (file_name r))).isSome = true
        ∧ path_total_size fs (artifact_path processed_dir (file_name r))
            > MIN_VALID_SIZE_BYTES) := by
  constructor
  · simp [filter_new_requests, List.mem_filter, Bool.not_eq_true']
  · cases hfs : fs (artifact_path processed_dir (file_name r)) with
    | none => simp [local_is_valid, path_total_size, hfs]
    | some e =>
      cases e with
      | file s => simp [local_is_valid, path_total_size, hfs, FSEntry.total_size]
      | dir cs => simp [local_is_valid, path_total_size, hfs, FSEntry.total_size]

/-- Closed instance of ww_filter_new_requests_skips_iff_valid: one request
whose artifact is a 2 MB file (skipped) evaluated concretely. -/
theorem ww_filter_new_requests_skips_iff_valid_witness :
    ("a" ∈ filter_new_requests
        (fun p => local_is_valid
          (fun q => if q = "processed/a.parquet" then some (FSEntry.file 2000000) else none)
          p MIN_VALID_SIZE_BYTES) "processed" id ["a"]
      ↔ "a" ∈ ["a"]
        ∧ local_is_valid
            (fun q => if q = "processed/a.parquet" then some (FSEntry.file 2000000) else none)
            (artifact_path "processed" "a") MIN_VALID_SIZE_BYTES = false) :=
  (ww_filter_new_requests_skips_iff_valid
    (fun q => if q = "processed/a.parquet" then some (FSEntry.file 2000000) else none)
    "processed" id ["a"] "a").1

/-- C2: when every request's artifact path is already valid in the store,
the dedup filter removes every request and the pipeline run returns the
empty produced-list with zero fetch, transform and store invocations. -/
theorem ww_warm_store_rerun_idempotent {α δ ε : Type} (fs : FileSystem)
    (processed_dir : String) (file_name : α → String) (all_requests : List α)
    (fetch : α → Option String) (transform : String → Except ε δ)
    (store : δ → String → Except ε String)
    (h : ∀ r ∈ all_requests,
      local_is_valid fs (artifact_path processed_dir (file_name r))
        MIN_VALID_SIZE_BYTES = true) :
    filter_new_requests (fun p => local_is_valid fs p MIN_VALID_SIZE_BYTES)
        processed_dir file_name all_requests = []
    ∧ process_requests fetch transform store processed_dir file_name
        (filter_new_requests (fun p => local_is_valid fs p MIN_VALID_SIZE_BYTES)
          processed_dir file_name all_requests)
      = ⟨0, 0, 0, Except.ok []⟩ := by
  have hnil : filter_new_requests (fun p => local_is_valid fs p MIN_VALID_SIZE_BYTES)
      processed_dir file_name all_requests = [] := by
    refine List.filter_eq_nil_iff.mpr ?_
    intro a ha
    simp [h a ha]
  exact ⟨hnil, by rw [hnil]; rfl⟩

/-- Closed instance of ww_warm_store_rerun_idempotent: a warm store whose
every path holds a 2 MB file; the rerun filters out the request and makes
no collaborator call. -/
theorem ww_warm_store_rerun_idempotent_witness :
    process_requests (fun (_ : String) => some "raw") (fun _ => (Except.ok () : Except Unit Unit))
        (fun _ p => Except.ok p) "processed" id
        (filter_new_requests
          (fun p => local_is_valid (fun _ => some (FSEntry.file 2000000)) p MIN_VALID_SIZE_BYTES)
          "processed" id ["a", "b"])
      = ⟨0, 0, 0, Except.ok []⟩ :=
  (ww_warm_store_rerun_idempotent (fun _ => some (FSEntry.file 2000000)) "processed" id
    ["a", "b"] (fun _ => some "raw") (fun _ => Except.ok ()) (fun _ p => Except.ok p)
    (by intro r _; rfl)).2

/-- C10: LocalClient.is_valid returns false for a missing path; for an
existing regular file it is true iff the file size strictly exceeds the
threshold; for an existing directory it is true iff the summed size of all
nested regular files strictly exceeds the threshold. -/
theorem ww_local_is_valid_cases (fs : FileSystem) (path : String) (min_size_bytes : Nat) :
    (fs path = none → local_is_valid fs path min_size_bytes = false)
    ∧ (∀ s, fs path = some (FSEntry.file s) →
        (local_is_valid fs path min_size_bytes = true ↔ s > min_size_bytes))
    ∧ (∀ cs, fs path = some (FSEntry.dir cs) →
        (local_is_valid fs path min_size_bytes = true
          ↔ FSEntry.total_size_list cs > min_size_bytes)) := by
  refine ⟨fun h => by simp [local_is_valid, h], fun s h => by simp [local_is_valid, h],
    fun cs h => by simp [local_is_valid, h]⟩

/-- Closed instance of ww_local_is_valid_cases: a store holding one 2 MB
file, one directory of nested files summing to 1.1 MB, and nothing else;
each of the three case hypotheses is discharged at a concrete path. -/
theorem ww_local_is_valid_cases_witness :
    (local_is_valid
        (fun q => if q = "f" then some (FSEntry.file 2000000)
          else if q = "d" then some (FSEntry.dir [FSEntry.file 600000,
            FSEntry.dir [FSEntry.file 500000]]) else none)
        "missing" MIN_VALID_SIZE_BYTES = false)
    ∧ (local_is_valid
        (fun q => if q = "f" then some (FSEntry.file 2000000)
          else if q = "d" then some (FSEntry.dir [FSEntry.file 600000,
            FSEntry.dir [FSEntry.file 500000]]) else none)
        "f" MIN_VALID_SIZE_BYTES = true ↔ 2000000 > MIN_VALID_SIZE_BYTES)
    ∧ (local_is_valid
        (fun q => if q = "f" then some (FSEntry.file 2000000)
          else if q = "d" then some (FSEntry.dir [FSEntry.file 600000,
            FSEntry.dir [FSEntry.file 500000]]) else none)
        "d" MIN_VALID_SIZE_BYTES = true
        ↔ FSEntry.total_size_list [FSEntry.file 600000,
            FSEntry.dir [FSEntry.file 500000]] > MIN_VALID_SIZE_BYTES) :=
  ⟨(ww_local_is_valid_cases
      (fun q => if q = "f" then some (FSEntry.file 2000000)
        else if q = "d" then some (FSEntry.dir [FSEntry.file 600000,
          FSEntry.dir [FSEntry.file 500000]]) else none)
      "missing" MIN_VALID_SIZE_BYTES).1 (by rfl),
   (ww_local_is_valid_cases
      (fun q => if q = "f" then some (FSEntry.file 2000000)
        else if q = "d" then some (FSEntry.dir [FSEntry.file 600000,
          FSEntry.dir [FSEntry.file 500000]]) else none)
      "f" MIN_VALID_SIZE_BYTES).2.1 2000000 (by rfl),
   (ww_local_is_valid_cases
      (fun q => if q = "f" then some (FSEntry.file 2000000)
        else if q = "d" then some (FSEntry.dir [FSEntry.file 600000,
          FSEntry.dir [FSEntry.file 500000]]) else none)
      "d" MIN_VALID_SIZE_BYTES).2.2 _ (by rfl)⟩

/-- C6 counterexample: with five new requests the orchestrator creates
npartitions = 5 partitions, which exceeds the configured MAX_THREADS = 4 —
the partition count is not bounded by the configured worker concurrency
(MAX_THREADS is never used by _process_requests). -/
theorem ww_npartitions_exceeds_max_threads_cex :
    npartitions [(), (), (), (), ()] = 5 ∧ MAX_THREADS = 4
    ∧ ¬ npartitions [(), (), (), (), ()] ≤ MAX_THREADS := by
  decide

/-- C6 amended: the orchestrator partitions the deduplicated request list
into exactly one partition per request (npartitions = len(all_new_requests)),
so the partition count never exceeds the number of requests; it is not
bounded by MAX_THREADS. -/
theorem ww_npartitions_eq_length {α : Type} (all_new_requests : List α) :
    npartitions all_new_requests = all_new_requests.length
    ∧ npartitions all_new_requests ≤ all_new_requests.length :=
  ⟨rfl, le_refl _⟩

/-- C9: when the raw destination path (raw_dir / file_name + wire-format
extension) already exists with size strictly above the threshold and
update is false, both fetchers return the existing path without invoking
the network client. -/
theorem ww_download_raw_file_cache_hit (fs : String → Option Nat) (retrieve : Option Nat)
    (raw_dir : String) (request : ECMWFOpenDataRequest) (cds_file_name : String)
    (sz sz2 : Nat)
    (h1 : fs (raw_dir ++ "/" ++ request.file_name ++ ".grib2") = some sz)
    (h2 : sz > MIN_VALID_SIZE_BYTES)
    (h3 : fs (raw_dir ++ "/" ++ cds_file_name ++ ".grib") = some sz2)
    (h4 : sz2 > MIN_VALID_SIZE_BYTES) :
    ecmwf_open_data_download_raw_file fs retrieve raw_dir request false MIN_VALID_SIZE_BYTES
      = ⟨some (raw_dir ++ "/" ++ request.file_name ++ ".grib2"), 0⟩
    ∧ ecmwf_cds_download_raw_file fs retrieve raw_dir cds_file_name false MIN_VALID_SIZE_BYTES
      = ⟨some (raw_dir ++ "/" ++ cds_file_name ++ ".grib"), 0⟩ := by
  constructor
  · simp [ecmwf_open_data_download_raw_file, download_raw_file_generic, h1, h2]
  · simp [ecmwf_cds_download_raw_file, download_raw_file_generic, h3, h4]

/-- Closed instance of ww_download_raw_file_cache_hit: every raw path
holds a 2 MB file, so the fetchers return the destination path with zero
network calls. -/
theorem ww_download_raw_file_cache_hit_witness :
    ecmwf_open_data_download_raw_file (fun _ => some 2000000) (some 5) "raw"
        { run_date := ⟨2022, 1, 1⟩, run_time := RunTime.H00, stream := StreamType.OPER,
          request_type := RequestType.FORECAST, nwp_parameters := ["167"],
          forecast_steps := [0, 6] } false MIN_VALID_SIZE_BYTES
      = ⟨some ("raw" ++ "/"
          ++ ECMWFOpenDataRequest.file_name
              { run_date := ⟨2022, 1, 1⟩, run_time := RunTime.H00, stream := StreamType.OPER,
                request_type := RequestType.FORECAST, nwp_parameters := ["167"],
                forecast_steps := [0, 6] } ++ ".grib2"), 0⟩ :=
  (ww_download_raw_file_cache_hit (fun _ => some 2000000) (some 5) "raw"
    { run_date := ⟨2022, 1, 1⟩, run_time := RunTime.H00, stream := StreamType.OPER,
      request_type := RequestType.FORECAST, nwp_parameters := ["167"],
      forecast_steps := [0, 6] } "era5/abc" 2000000 2000000
    (by rfl) (by decide) (by rfl) (by decide)).1

/-- C3: when the fetcher returns no raw path for exactly one request of
the batch and every fetched raw file transforms and stores without an
exception, the run returns ok (no exception propagates) with exactly one
artifact per non-failing request — the fetch-failed request is filtered
out and the batch is not aborted. -/
theorem ww_fetch_failure_isolated {α δ ε : Type} (fetch : α → Option String)
    (transform : String → Except ε δ) (store : δ → String → Except ε String)
    (processed_dir : String) (file_name : α → String) (d : String → δ)
    (reqs : List α)
    (hone : (reqs.filter fun r => (fetch r).isNone).length = 1)
    (htr : ∀ raw, transform raw = Except.ok (d raw))
    (hst : ∀ x p, store x p = Except.ok p) :
    (process_requests fetch transform store processed_dir file_name reqs).result
      = Except.ok ((reqs.filter fun r => (fetch r).isSome).map
          fun r => artifact_path processed_dir (file_name r))
    ∧ ((reqs.filter fun r => (fetch r).isSome).map
        fun r => artifact_path processed_dir (file_name r)).length
      = reqs.length - 1 := by
  have hlen := length_filter_some_add_none fetch reqs
  have hpos : reqs.length > 0 := by omega
  constructor
  · have hrun := run_bag_sync_result_all_ok fetch transform store processed_dir
      file_name d htr hst reqs
    simpa [process_requests, hpos] using hrun
  · simp only [List.length_map]
    omega

/-- Closed instance of ww_fetch_failure_isolated: 3 requests, the fetch of
request 2 fails; the run returns ok with exactly the 2 artifacts of
requests 1 and 3. -/
theorem ww_fetch_failure_isolated_witness :
    (process_requests (fun (n : Nat) => if n = 2 then none else some ("raw" ++ toString n))
        (fun (_ : String) => (Except.ok () : Except String Unit)) (fun _ p => Except.ok p)
        "processed" (fun n => toString n) [1, 2, 3]).result
      = Except.ok (([1, 2, 3].filter
          fun r => ((fun (n : Nat) => if n = 2 then none else some ("raw" ++ toString n)) r).isSome).map
            fun r => artifact_path "processed" (toString r)) :=
  (ww_fetch_failure_isolated (fun (n : Nat) => if n = 2 then none else some ("raw" ++ toString n))
    (fun (_ : String) => (Except.ok () : Except String Unit)) (fun _ p => Except.ok p)
    "processed" (fun n => toString n) (fun _ => ()) [1, 2, 3]
    (by decide) (fun _ => rfl) (fun _ _ => rfl)).1

/-- C4 counterexample: two requests whose fetches both succeed, with the
transform of the first raising; the synchronous run aborts with the
propagated exception — the result is Except.error rather than an ok list
surfacing a failure count, the sibling request is never fetched (one fetch
call) and its artifact is never stored (zero store calls). -/
theorem ww_transform_failure_aborts_run_cex :
    process_requests (fun (n : Nat) => some ("raw" ++ toString n))
        (fun (raw : String) => if raw = "raw1" then Except.error "boom" else Except.ok ())
        (fun (_ : Unit) p => Except.ok p) "processed" (fun n => toString n) [1, 2]
      = ⟨1, 1, 0, Except.error "boom"⟩ := by
  rfl

/-- C4 amended: a transform failure is not swallowed — it propagates as
the task's error out of the whole run. Under the synchronous scheduler the
run aborts at that point: every request before the failing one ran its
chain, the failing request's fetch is the last fetch performed, sibling
requests after it are not executed, and no produced-list (hence no final
failure count) is returned. -/
theorem ww_transform_failure_propagates {α δ ε : Type} (fetch : α → Option String)
    (transform : String → Except ε δ) (store : δ → String → Except ε String)
    (processed_dir : String) (file_name : α → String)
    (l1 l2 : List α) (r : α) (raw_path : String) (e : ε)
    (h1 : ∀ x ∈ l1, chain_ok fetch transform store processed_dir file_name x)
    (h2 : fetch r = some raw_path) (h3 : transform raw_path = Except.error e) :
    (run_bag_sync fetch transform store processed_dir file_name (l1 ++ r :: l2)).result
      = Except.error e
    ∧ (run_bag_sync fetch transform store processed_dir file_name (l1 ++ r :: l2)).fetch_calls
      = l1.length + 1 := by
  induction l1 with
  | nil => simp [run_bag_sync, h2, h3]
  | cons x l1 ih =>
    have hx := h1 x (List.mem_cons_self x l1)
    have hrest := ih fun y hy => h1 y (List.mem_cons_of_mem x hy)
    unfold chain_ok at hx
    cases hfx : fetch x with
    | none =>
      rw [List.cons_append]
      simp [run_bag_sync, hfx, hrest.1, hrest.2]
    | some rawx =>
      rw [hfx] at hx
      obtain ⟨dx, hdx, px, hpx⟩ := hx
      rw [List.cons_append]
      simp [run_bag_sync, hfx, hdx, hpx, hrest.1, hrest.2]

/-- Closed instance of ww_transform_failure_propagates: one succeeding
request before a request whose transform raises; the run's result is the
propagated error and exactly two fetches happened. -/
theorem ww_transform_failure_propagates_witness :
    (run_bag_sync (fun (n : Nat) => some ("raw" ++ toString n))
        (fun (raw : String) => if raw = "raw2" then Except.error "boom" else Except.ok ())
        (fun (_ : Unit) p => Except.ok p) "processed" (fun n => toString n) ([1] ++ 2 :: [])).result
      = Except.error "boom" :=
  (ww_transform_failure_propagates (fun (n : Nat) => some ("raw" ++ toString n))
    (fun (raw : String) => if raw = "raw2" then Except.error "boom" else Except.ok ())
    (fun (_ : Unit) p => Except.ok p) "processed" (fun n => toString n)
    [1] [] 2 "raw2" "boom"
    (by intro x hx; simp at hx; subst hx; exact ⟨(), by rfl, "processed/1.parquet", by rfl⟩)
    (by rfl) (by rfl)).1

/-- C5 counterexample: two open-data Requests that differ in a parameter
field (nwp_parameters) yet have the same file_name — the derived identity
is not collision-resistant over all parameter fields, since
ECMWFOpenDataRequest.file_name omits nwp_parameters (and interior
forecast steps). -/
theorem ww_file_name_collision_cex :
    ({ run_date := ⟨2022, 1, 1⟩, run_time := RunTime.H00, stream := StreamType.OPER,
       request_type := RequestType.FORECAST, nwp_parameters := ["167"],
       forecast_steps := [0, 6] } : ECMWFOpenDataRequest)
      ≠ ({ run_date := ⟨2022, 1, 1⟩, run_time := RunTime.H00, stream := StreamType.OPER,
           request_type := RequestType.FORECAST, nwp_parameters := ["169"],
           forecast_steps := [0, 6] } : ECMWFOpenDataRequest)
    ∧ ECMWFOpenDataRequest.file_name
        { run_date := ⟨2022, 1, 1⟩, run_time := RunTime.H00, stream := StreamType.OPER,
          request_type := RequestType.FORECAST, nwp_parameters := ["167"],
          forecast_steps := [0, 6] }
      = ECMWFOpenDataRequest.file_name
          { run_date := ⟨2022, 1, 1⟩, run_time := RunTime.H00, stream := StreamType.OPER,
            request_type := RequestType.FORECAST, nwp_parameters := ["169"],
            forecast_steps := [0, 6] } := by
  decide

/-- C5 amended: the derived identity is deterministic — it is stable
across repeated computation, and two open-data Requests whose parameter
fields are all equal have equal file_name — but it is not injective over
all parameter fields: the name embeds only run_date, run_time, stream,
request_type and the first and last forecast step, so Requests differing
only in the omitted fields (e.g. nwp_parameters) share an identity. -/
theorem ww_file_name_deterministic (r s : ECMWFOpenDataRequest)
    (h1 : r.run_date = s.run_date) (h2 : r.run_time = s.run_time)
    (h3 : r.stream = s.stream) (h4 : r.request_type = s.request_type)
    (_h5 : r.nwp_parameters = s.nwp_parameters)
    (h6 : r.forecast_steps = s.forecast_steps)
    (_h7 : r.update_raw = s.update_raw) (_h8 : r.geo_filter = s.geo_filter)
    (_h9 : r.normalise_data = s.normalise_data) :
    r.file_name = s.file_name ∧ r.file_name = r.file_name := by
  refine ⟨?_, rfl⟩
  simp [ECMWFOpenDataRequest.file_name, h1, h2, h3, h4, h6]

/-- Closed instance of ww_file_name_deterministic: the identity of a
concrete request computed twice is one and the same string. -/
theorem ww_file_name_deterministic_witness :
    ECMWFOpenDataRequest.file_name
        { run_date := ⟨2022, 1, 1⟩, run_time := RunTime.H00, stream := StreamType.OPER,
          request_type := RequestType.FORECAST, nwp_parameters := ["167"],
          forecast_steps := [0, 6] }
      = ECMWFOpenDataRequest.file_name
          { run_date := ⟨2022, 1, 1⟩, run_time := RunTime.H00, stream := StreamType.OPER,
            request_type := RequestType.FORECAST, nwp_parameters := ["167"],
            forecast_steps := [0, 6] } :=
  (ww_file_name_deterministic
    { run_date := ⟨2022, 1, 1⟩, run_time := RunTime.H00, stream := StreamType.OPER,
      request_type := RequestType.FORECAST, nwp_parameters := ["167"],
      forecast_steps := [0, 6] }
    { run_date := ⟨2022, 1, 1⟩, run_time := RunTime.H00, stream := StreamType.OPER,
      request_type := RequestType.FORECAST, nwp_parameters := ["167"],
      forecast_steps := [0, 6] }
    rfl rfl rfl rfl rfl rfl rfl rfl rfl).1

/-- C7: building default requests with the DAILY offset unit expands
exactly the run-dates start, start+1, ..., start+(N-1), in that order, and
returns the date-major flattened concatenation of the policy's requests
per run-date; with N = 2 and a one-request-per-date policy this is exactly
the two requests of start and start+1. -/
theorem ww_build_default_requests_daily_expansion {α : Type} (start N : Nat)
    (build_policy : Nat → List α) :
    (all_run_dates_daily start N).length = N
    ∧ (∀ i, i < N → (all_run_dates_daily start N)[i]? = some (start + i))
    ∧ build_default_requests_daily build_policy start N
        = ((List.range N).map fun i => build_policy (start + i)).flatten
    ∧ (∀ mk : Nat → α, (∀ dte, build_policy dte = [mk dte]) →
        build_default_requests_daily build_policy start 2 = [mk start, mk (start + 1)]) := by
  refine ⟨by simp [all_run_dates_daily], ?_, ?_, ?_⟩
  · intro i hi
    simp [all_run_dates_daily, List.getElem?_range, hi]
  · simp [build_default_requests_daily, all_run_dates_daily, List.map_map, Function.comp_def]
  · intro mk hmk
    simp [build_default_requests_daily, all_run_dates_daily, List.range_succ, hmk]

/-- Closed instance of ww_build_default_requests_daily_expansion: start
date 738156 (2022-01-01 as an epoch-day ordinal), N = 2, policy emitting
one request per date: exactly two requests, dated start and start+1. -/
theorem ww_build_default_requests_daily_expansion_witness :
    build_default_requests_daily (fun dte => [dte]) 738156 2 = [738156, 738156 + 1] :=
  ((ww_build_default_requests_daily_expansion 738156 2 (fun dte => [dte])).2.2.2
    id (fun _ => rfl))

/-- C8: for a GeoFilterModel with non-empty filter_df, the bounds property
is defined and contains every region geometry's bounds, and restricting
the region set with filter_iso3s yields a filter whose bounds are
recomputed as the union bounds of the new (filtered) geometry set — there
is no cached envelope to go stale. -/
theorem ww_geo_filter_envelope_invariant (f : GeoFilterModel) (h : f.filter_df ≠ []) :
    (∃ b, f.bounds = some b ∧ ∀ reg ∈ f.filter_df, b.contains reg.geometry)
    ∧ ∀ list_iso3s, (f.filter_iso3s list_iso3s).bounds
        = union_bounds ((f.filter_df.filter
            fun r => list_iso3s.contains r.country_iso3).map GeoRegion.geometry) := by
  constructor
  · cases hdf : f.filter_df with
    | nil => exact absurd hdf h
    | cons r rs =>
      refine ⟨(rs.map GeoRegion.geometry).foldl GeoBounds.union2 r.geometry, ?_, ?_⟩
      · simp [GeoFilterModel.bounds, hdf, union_bounds]
      · intro reg hreg
        have h2 := contains_foldl_union2 (rs.map GeoRegion.geometry) r.geometry
        rcases List.mem_cons.mp hreg with rfl | hmem
        · exact h2.1
        · exact h2.2 _ (List.mem_map_of_mem _ hmem)
  · intro list_iso3s
    rfl

/-- Closed instance of ww_geo_filter_envelope_invariant: a two-region
filter; its envelope contains both regions' bounds. -/
theorem ww_geo_filter_envelope_invariant_witness :
    ∃ b, (GeoFilterModel.mk [⟨"FRA", ⟨-5, 41, 10, 51⟩⟩, ⟨"DEU", ⟨5, 47, 15, 55⟩⟩]
        "within").bounds = some b
      ∧ ∀ reg ∈ (GeoFilterModel.mk [⟨"FRA", ⟨-5, 41, 10, 51⟩⟩, ⟨"DEU", ⟨5, 47, 15, 55⟩⟩]
          "within").filter_df, b.contains reg.geometry :=
  (ww_geo_filter_envelope_invariant
    (GeoFilterModel.mk [⟨"FRA", ⟨-5, 41, 10, 51⟩⟩, ⟨"DEU", ⟨5, 47, 15, 55⟩⟩] "within")
    (by simp)).1
